import Mathlib

/-
  Verification development for the Aqualyx groundwater pollution
  analysis core (src/utils/pollutionCalculations.ts and the per-sample
  processing in the Index page).

  Numbers are modelled as exact rationals (ℚ).  JavaScript's
  `Number(x.toFixed(2))` is modelled as rounding to the nearest
  multiple of 1/100 (half away from zero on the nonnegative domain,
  which coincides with Mathlib's `round` there).  JavaScript's NaN and
  -Infinity values, which arise only from division by a zero total and
  from `Math.max()` of no arguments, are modelled as `none` in an
  `Option ℚ`.
-/

namespace Aqualyx

/-- The three contamination tiers of the classifier. -/
inductive Status where
  | safe
  | moderate
  | danger
deriving DecidableEq, Repr

/-- The four tracked heavy metals, in the canonical iteration order of
the source (object-literal key order: lead, cadmium, arsenic, chromium). -/
inductive Metal where
  | lead
  | cadmium
  | arsenic
  | chromium
deriving DecidableEq, Repr

/-- `MetalConcentrations`: the four named concentration fields (mg/L). -/
structure MetalConcentrations where
  lead : ℚ
  cadmium : ℚ
  arsenic : ℚ
  chromium : ℚ
deriving DecidableEq, Repr

/-- Field lookup `metals[metal]`. -/
def conc (m : MetalConcentrations) : Metal → ℚ
  | .lead => m.lead
  | .cadmium => m.cadmium
  | .arsenic => m.arsenic
  | .chromium => m.chromium

/-- The fixed `STANDARDS` table: WHO/EPA limits in mg/L. -/
def STANDARDS : Metal → ℚ
  | .lead => 1/100
  | .cadmium => 3/1000
  | .arsenic => 1/100
  | .chromium => 1/20

/-- The fixed `WEIGHTS` table used by the HPI computation. -/
def WEIGHTS : Metal → ℚ
  | .lead => 9/10
  | .cadmium => 1
  | .arsenic => 1
  | .chromium => 4/5

/-- `Object.keys(metals)`: the metals in object-literal key order. -/
def metalKeys : List Metal := [.lead, .cadmium, .arsenic, .chromium]

/-- The lowercase key string of a metal, as used by the source. -/
def metalName : Metal → String
  | .lead => "lead"
  | .cadmium => "cadmium"
  | .arsenic => "arsenic"
  | .chromium => "chromium"

/-- `Number(x.toFixed(2))`: round to 2 decimal places. -/
def round2 (x : ℚ) : ℚ := ((round (x * 100) : ℤ) : ℚ) / 100

/-- `Number(x.toFixed(1))`: round to 1 decimal place. -/
def round1 (x : ℚ) : ℚ := ((round (x * 10) : ℤ) : ℚ) / 10

/-- `calculateHPI`: forEach over the metal keys accumulating
`weightedSum` and `totalWeight`, with sub-index
`100 * (c - s) / s` when `c > s` and `0` otherwise, then
`weightedSum / totalWeight` guarded by `totalWeight > 0`. -/
def calculateHPI (m : MetalConcentrations) : ℚ :=
  let acc := metalKeys.foldl
    (fun (acc : ℚ × ℚ) metal =>
      let concentration := conc m metal
      let standard := STANDARDS metal
      let weight := WEIGHTS metal
      let subIndex := if concentration > standard
        then 100 * (concentration - standard) / standard
        else 0
      (acc.1 + weight * subIndex, acc.2 + weight))
    ((0 : ℚ), (0 : ℚ))
  if acc.2 > 0 then acc.1 / acc.2 else 0

/-- `calculateMI`: the reduce of the exceedance ratios divided by the
number of metal keys. -/
def calculateMI (m : MetalConcentrations) : ℚ :=
  (metalKeys.foldl (fun acc metal => acc + conc m metal / STANDARDS metal) 0)
    / (metalKeys.length : ℚ)

/-- `calculateCd`: the reduce of the exceedance ratios. -/
def calculateCd (m : MetalConcentrations) : ℚ :=
  metalKeys.foldl (fun acc metal => acc + conc m metal / STANDARDS metal) 0

/-- The status-plus-label pair returned by `getPollutionStatus`. -/
structure StatusResult where
  status : Status
  statusLabel : String
deriving DecidableEq, Repr

/-- `getPollutionStatus`: ordered threshold checks, most severe first,
all comparisons strict. -/
def getPollutionStatus (hpi mi cd : ℚ) : StatusResult :=
  if hpi > 100 ∨ mi > 3/2 ∨ cd > 3 then
    ⟨Status.danger, "High Contamination"⟩
  else if hpi > 50 ∨ mi > 1 ∨ cd > 3/2 then
    ⟨Status.moderate, "Moderate Contamination"⟩
  else
    ⟨Status.safe, "Safe Level"⟩

/-- The `PollutionIndices` record: rounded index values plus the
classification. -/
structure PollutionIndices where
  hpi : ℚ
  mi : ℚ
  cd : ℚ
  status : Status
  statusLabel : String
deriving DecidableEq, Repr

/-- `calculatePollutionIndices`: computes the three raw indices,
classifies the raw values, and stores the indices rounded to 2
decimals together with the status and label. -/
def calculatePollutionIndices (m : MetalConcentrations) : PollutionIndices :=
  let hpi := calculateHPI m
  let mi := calculateMI m
  let cd := calculateCd m
  let st := getPollutionStatus hpi mi cd
  { hpi := round2 hpi
    mi := round2 mi
    cd := round2 cd
    status := st.status
    statusLabel := st.statusLabel }

/-- `s.charAt(0).toUpperCase() + s.slice(1)`. -/
def capitalize (s : String) : String :=
  match s.data with
  | [] => ""
  | c :: cs => String.mk (c.toUpper :: cs)

/-- The record returned by `getMostCriticalMetal`. -/
structure CriticalMetal where
  metal : String
  ratio : ℚ
  exceedsStandard : Bool
deriving DecidableEq, Repr

/-- The per-metal exceedance ratio `metals[metal] / STANDARDS[metal]`
computed inside the forEach callback of `getMostCriticalMetal`. -/
def ratio (m : MetalConcentrations) (metal : Metal) : ℚ :=
  conc m metal / STANDARDS metal

/-- The forEach callback of `getMostCriticalMetal`: replace the
accumulator exactly when the metal's ratio strictly exceeds the
running maximum. -/
def criticalStep (m : MetalConcentrations) (acc : ℚ × String) (metal : Metal) :
    ℚ × String :=
  if ratio m metal > acc.1 then (ratio m metal, metalName metal) else acc

/-- `getMostCriticalMetal`: forEach over the metal keys keeping the
running maximum ratio (strict improvement only), starting from
`maxRatio = 0` and `criticalMetal = "lead"`; returns the capitalized
metal name, the rounded ratio, and whether the ratio exceeds 1. -/
def getMostCriticalMetal (m : MetalConcentrations) : CriticalMetal :=
  let acc := metalKeys.foldl (criticalStep m) ((0 : ℚ), metalName Metal.lead)
  { metal := capitalize acc.2
    ratio := round2 acc.1
    exceedsStandard := decide (acc.1 > 1) }

/-- One tier of the summary distribution: count and percentage.
The percentage is `none` when it is NaN in JavaScript (zero total). -/
structure TierStat where
  count : ℕ
  percentage : Option ℚ
deriving DecidableEq, Repr

/-- The record returned by `generateSummaryStats`.  Fields that are
NaN or -Infinity in JavaScript on a zero-length input are `none`. -/
structure SummaryStats where
  total : ℕ
  safe : TierStat
  moderate : TierStat
  danger : TierStat
  avgHpi : Option ℚ
  avgMi : Option ℚ
  avgCd : Option ℚ
  maxHpi : Option ℚ
  maxMi : Option ℚ
  maxCd : Option ℚ
deriving DecidableEq, Repr

/-- `Math.max(...xs)`: `none` models the -Infinity result on an empty
argument list. -/
def jsMax (xs : List ℚ) : Option ℚ :=
  match xs with
  | [] => none
  | x :: rest => some (rest.foldl max x)

/-- `generateSummaryStats`: counts per tier, percentage
`Number(((count / total) * 100).toFixed(1))`, averages
`Number((sum / total).toFixed(2))`, maxima via `Math.max`.  The
source performs no emptiness check; on a zero total the JavaScript
divisions produce NaN and the maxima -Infinity, modelled as `none`. -/
def generateSummaryStats (results : List PollutionIndices) : SummaryStats :=
  let total := results.length
  let safeCount := (results.filter (fun r => decide (r.status = Status.safe))).length
  let moderateCount := (results.filter (fun r => decide (r.status = Status.moderate))).length
  let dangerCount := (results.filter (fun r => decide (r.status = Status.danger))).length
  let pct := fun (c : ℕ) =>
    if total = 0 then none
    else some (round1 (((c : ℚ) / (total : ℚ)) * 100))
  let avgOf := fun (f : PollutionIndices → ℚ) =>
    if total = 0 then none
    else some (round2 ((results.map f).sum / (total : ℚ)))
  let maxOf := fun (f : PollutionIndices → ℚ) =>
    (jsMax (results.map f)).map round2
  { total := total
    safe := ⟨safeCount, pct safeCount⟩
    moderate := ⟨moderateCount, pct moderateCount⟩
    danger := ⟨dangerCount, pct dangerCount⟩
    avgHpi := avgOf (fun r => r.hpi)
    avgMi := avgOf (fun r => r.mi)
    avgCd := avgOf (fun r => r.cd)
    maxHpi := maxOf (fun r => r.hpi)
    maxMi := maxOf (fun r => r.mi)
    maxCd := maxOf (fun r => r.cd) }

/-- The validated input record consumed by `analyzeData`. -/
structure SampleData where
  sampleId : String
  latitude : ℚ
  longitude : ℚ
  lead : ℚ
  cadmium : ℚ
  arsenic : ℚ
  chromium : ℚ
deriving DecidableEq, Repr

/-- The enriched per-sample result: the sample fields plus `indices`. -/
structure SampleResult where
  sampleId : String
  latitude : ℚ
  longitude : ℚ
  lead : ℚ
  cadmium : ℚ
  arsenic : ℚ
  chromium : ℚ
  indices : PollutionIndices
deriving DecidableEq, Repr

/-- The body of the `map` inside `analyzeData`: build the
`MetalConcentrations` from the sample's four metal fields, compute the
indices, and return `{ ...sample, indices }`. -/
def processSample (s : SampleData) : SampleResult :=
  let metalConcentrations : MetalConcentrations :=
    ⟨s.lead, s.cadmium, s.arsenic, s.chromium⟩
  let indices := calculatePollutionIndices metalConcentrations
  { sampleId := s.sampleId
    latitude := s.latitude
    longitude := s.longitude
    lead := s.lead
    cadmium := s.cadmium
    arsenic := s.arsenic
    chromium := s.chromium
    indices := indices }

/-- `analyzeData`'s successful path: map `processSample` over the
uploaded samples. -/
def analyzeData (data : List SampleData) : List SampleResult :=
  data.map processSample

/-- Spec-side sub-index: `Qi = 100 * (Ci - Si) / Si` when `Ci > Si`,
else `0` (section 4.2 of the specification). -/
def specQ (c s : ℚ) : ℚ := if c > s then 100 * (c - s) / s else 0

/-- Spec-side: the largest of the four exceedance ratios. -/
def specMaxRatio (m : MetalConcentrations) : ℚ :=
  max (max (max (ratio m Metal.lead) (ratio m Metal.cadmium))
    (ratio m Metal.arsenic)) (ratio m Metal.chromium)

/-- Spec-side Critical-Metal Finder, following the words of section
4.6: compute the four ratios, take the largest, pick the first metal
in canonical order achieving it, round the ratio to 2 decimals, and
report whether the (unrounded) ratio exceeds 1. -/
def specMostCritical (m : MetalConcentrations) : CriticalMetal :=
  { metal :=
      if ratio m Metal.lead = specMaxRatio m then capitalize (metalName Metal.lead)
      else if ratio m Metal.cadmium = specMaxRatio m then capitalize (metalName Metal.cadmium)
      else if ratio m Metal.arsenic = specMaxRatio m then capitalize (metalName Metal.arsenic)
      else capitalize (metalName Metal.chromium)
    ratio := round2 (specMaxRatio m)
    exceedsStandard := decide (specMaxRatio m > 1) }

end Aqualyx

namespace Aqualyx

/-- Each element of a list of pollution-index records is counted by
exactly one of the three status filters. -/
theorem filter_status_partition (rs : List PollutionIndices) :
    (rs.filter (fun r => decide (r.status = Status.safe))).length +
      (rs.filter (fun r => decide (r.status = Status.moderate))).length +
      (rs.filter (fun r => decide (r.status = Status.danger))).length
      = rs.length := by
  induction rs with
  | nil => rfl
  | cons r rest ih =>
    cases h : r.status <;> simp [List.filter_cons, h] <;> omega

end Aqualyx

namespace Aqualyx

/-- Claim C1 counterexample: on an empty collection the aggregator does
not fail; it returns a complete `SummaryStats` value (here: total 0,
zero safe count, undefined average), contradicting the claim that no
partial `SummaryStatistics` value is produced. -/
theorem generateSummaryStats_empty_returns_value :
    (generateSummaryStats []).total = 0 ∧
      (generateSummaryStats []).safe.count = 0 ∧
      (generateSummaryStats []).avgHpi = none :=
  ⟨rfl, rfl, rfl⟩

/-- Claim C1 (amended): `generateSummaryStats` applied to zero results
raises no error and returns the degenerate summary: total 0, every
tier count 0 with undefined (NaN, modelled `none`) percentage,
undefined averages, and -Infinity (modelled `none`) maxima. -/
theorem generateSummaryStats_empty_value :
    generateSummaryStats [] =
      ⟨0, ⟨0, none⟩, ⟨0, none⟩, ⟨0, none⟩,
        none, none, none, none, none, none⟩ :=
  rfl

/-- Claim C2 counterexample: for the concentrations
(0.00601, 0.0009, 0.003, 0.015) the raw indices are (0, 0.37525, 1.501),
so the stored status is `moderate`, but the stored rounded fields are
(0, 0.38, 1.5) whose classification is `safe`: the status field does
not equal the classification of the record's own stored values. -/
theorem status_differs_from_stored_classification :
    (calculatePollutionIndices ⟨601/100000, 9/10000, 3/1000, 15/1000⟩).status
        = Status.moderate ∧
      (getPollutionStatus
          (calculatePollutionIndices ⟨601/100000, 9/10000, 3/1000, 15/1000⟩).hpi
          (calculatePollutionIndices ⟨601/100000, 9/10000, 3/1000, 15/1000⟩).mi
          (calculatePollutionIndices ⟨601/100000, 9/10000, 3/1000, 15/1000⟩).cd).status
        = Status.safe := by
  constructor <;>
    norm_num [calculatePollutionIndices, getPollutionStatus, calculateHPI,
      calculateMI, calculateCd, metalKeys, conc, STANDARDS, WEIGHTS,
      round2, round_eq]

/-- Claim C2 (amended): the status and label stored by
`calculatePollutionIndices` are exactly the classification of the raw
(unrounded) hpi, mi, cd computed for the input; rounding of the stored
fields may make them classify differently. -/
theorem status_from_unrounded_indices (m : MetalConcentrations) :
    (calculatePollutionIndices m).status
        = (getPollutionStatus (calculateHPI m) (calculateMI m) (calculateCd m)).status ∧
      (calculatePollutionIndices m).statusLabel
        = (getPollutionStatus (calculateHPI m) (calculateMI m) (calculateCd m)).statusLabel :=
  ⟨rfl, rfl⟩

/-- Claim C5: `calculateMI` is the unweighted mean of the four
concentration-to-standard ratios (standards 0.01, 0.003, 0.01, 0.05),
with no clipping below 1; at the all-at-standard input MI is exactly 1
and Cd exactly 4. -/
theorem calculateMI_spec :
    (∀ m : MetalConcentrations,
        calculateMI m =
          (m.lead / (1/100) + m.cadmium / (3/1000)
            + m.arsenic / (1/100) + m.chromium / (1/20)) / 4) ∧
      calculateMI ⟨1/100, 3/1000, 1/100, 1/20⟩ = 1 ∧
      calculateCd ⟨1/100, 3/1000, 1/100, 1/20⟩ = 4 := by
  refine ⟨fun m => ?_, ?_, ?_⟩
  · simp [calculateMI, metalKeys, conc, STANDARDS]
  · norm_num [calculateMI, metalKeys, conc, STANDARDS]
  · norm_num [calculateCd, metalKeys, conc, STANDARDS]

/-- Claim C6: `calculateCd` is the unweighted sum of the four
concentration-to-standard ratios; for the end-to-end example input
(0.05, 0.01, 0.02, 0.03) the stored cd is 10.93 and the status is
`danger`. -/
theorem calculateCd_spec :
    (∀ m : MetalConcentrations,
        calculateCd m =
          m.lead / (1/100) + m.cadmium / (3/1000)
            + m.arsenic / (1/100) + m.chromium / (1/20)) ∧
      (calculatePollutionIndices ⟨5/100, 1/100, 2/100, 3/100⟩).cd = 1093/100 ∧
      (calculatePollutionIndices ⟨5/100, 1/100, 2/100, 3/100⟩).status = Status.danger := by
  refine ⟨fun m => ?_, ?_, ?_⟩
  · simp [calculateCd, metalKeys, conc, STANDARDS]
  · norm_num [calculatePollutionIndices, calculateCd, metalKeys, conc, STANDARDS,
      round2, round_eq]
  · norm_num [calculatePollutionIndices, getPollutionStatus, calculateHPI,
      calculateMI, calculateCd, metalKeys, conc, STANDARDS, WEIGHTS]

/-- Claim C9: per-sample processing copies the seven input fields of
the sample unchanged into the result record and only adds the computed
`PollutionIndices`. -/
theorem processSample_frame (s : SampleData) :
    (processSample s).sampleId = s.sampleId ∧
      (processSample s).latitude = s.latitude ∧
      (processSample s).longitude = s.longitude ∧
      (processSample s).lead = s.lead ∧
      (processSample s).cadmium = s.cadmium ∧
      (processSample s).arsenic = s.arsenic ∧
      (processSample s).chromium = s.chromium ∧
      (processSample s).indices
        = calculatePollutionIndices ⟨s.lead, s.cadmium, s.arsenic, s.chromium⟩ :=
  ⟨rfl, rfl, rfl, rfl, rfl, rfl, rfl, rfl⟩

end Aqualyx

namespace Aqualyx

/-- Claim C3: `calculateHPI` equals the weighted mean of the four
sub-indices with weights 0.9, 1.0, 1.0, 0.8 and standards 0.01, 0.003,
0.01, 0.05; when every concentration is at or below its standard the
result is exactly 0. -/
theorem calculateHPI_spec (m : MetalConcentrations)
    (hl : 0 ≤ m.lead) (hc : 0 ≤ m.cadmium)
    (ha : 0 ≤ m.arsenic) (hch : 0 ≤ m.chromium) :
    calculateHPI m =
      ((9/10) * specQ m.lead (1/100) + 1 * specQ m.cadmium (3/1000)
        + 1 * specQ m.arsenic (1/100) + (4/5) * specQ m.chromium (1/20))
        / (9/10 + 1 + 1 + 4/5) ∧
      (m.lead ≤ 1/100 → m.cadmium ≤ 3/1000 → m.arsenic ≤ 1/100 →
        m.chromium ≤ 1/20 → calculateHPI m = 0) := by
  constructor
  · norm_num [calculateHPI, metalKeys, conc, STANDARDS, WEIGHTS, specQ]
  · intro h1 h2 h3 h4
    norm_num [calculateHPI, metalKeys, conc, STANDARDS, WEIGHTS,
      not_lt.2 h1, not_lt.2 h2, not_lt.2 h3, not_lt.2 h4]

/-- Witness for `calculateHPI_spec` at the all-at-standard input. -/
theorem calculateHPI_spec_witness :
    calculateHPI ⟨1/100, 3/1000, 1/100, 1/20⟩ = 0 :=
  (calculateHPI_spec ⟨1/100, 3/1000, 1/100, 1/20⟩ (by norm_num) (by norm_num)
      (by norm_num) (by norm_num)).2
    (by norm_num) (by norm_num) (by norm_num) (by norm_num)

/-- Claim C4: the classifier returns danger with label High
Contamination iff hpi exceeds 100 or mi exceeds 1.5 or cd exceeds 3
strictly; otherwise moderate with its label iff hpi exceeds 50 or mi
exceeds 1 or cd exceeds 1.5 strictly; otherwise safe; and at
hpi = 100 exactly (with mi and cd at or below their danger
thresholds) the result is moderate, not danger. -/
theorem getPollutionStatus_spec (hpi mi cd : ℚ) :
    (getPollutionStatus hpi mi cd = ⟨Status.danger, "High Contamination"⟩
        ↔ (hpi > 100 ∨ mi > 3/2 ∨ cd > 3)) ∧
      (getPollutionStatus hpi mi cd = ⟨Status.moderate, "Moderate Contamination"⟩
        ↔ (¬(hpi > 100 ∨ mi > 3/2 ∨ cd > 3) ∧ (hpi > 50 ∨ mi > 1 ∨ cd > 3/2))) ∧
      (getPollutionStatus hpi mi cd = ⟨Status.safe, "Safe Level"⟩
        ↔ (¬(hpi > 100 ∨ mi > 3/2 ∨ cd > 3) ∧ ¬(hpi > 50 ∨ mi > 1 ∨ cd > 3/2))) ∧
      (hpi = 100 → mi ≤ 3/2 → cd ≤ 3 →
        getPollutionStatus hpi mi cd = ⟨Status.moderate, "Moderate Contamination"⟩) := by
  refine ⟨?_, ?_, ?_, fun h100 hmi hcd => ?_⟩
  · unfold getPollutionStatus
    split_ifs with h1 h2 <;> simp_all [StatusResult.mk.injEq]
  · unfold getPollutionStatus
    split_ifs with h1 h2 <;> simp_all [StatusResult.mk.injEq]
  · unfold getPollutionStatus
    split_ifs with h1 h2 <;> simp_all [StatusResult.mk.injEq]
  · have hnd : ¬(hpi > 100 ∨ mi > 3/2 ∨ cd > 3) := by
      push_neg
      exact ⟨le_of_eq h100, hmi, hcd⟩
    have hm : hpi > 50 ∨ mi > 1 ∨ cd > 3/2 := Or.inl (by rw [h100]; norm_num)
    unfold getPollutionStatus
    rw [if_neg hnd, if_pos hm]

/-- Witness for `getPollutionStatus_spec`: hpi exactly 100 with small
mi and cd classifies as moderate. -/
theorem getPollutionStatus_spec_witness :
    getPollutionStatus 100 1 2 = ⟨Status.moderate, "Moderate Contamination"⟩ :=
  (getPollutionStatus_spec 100 1 2).2.2.2 rfl (by norm_num) (by norm_num)

/-- Claim C8: on a non-empty collection the tier counts partition the
total exactly, and each tier's percentage is the independently rounded
value round1 of 100 times count over total. -/
theorem generateSummaryStats_spec (rs : List PollutionIndices) (h : rs ≠ []) :
    (generateSummaryStats rs).safe.count + (generateSummaryStats rs).moderate.count
        + (generateSummaryStats rs).danger.count = (generateSummaryStats rs).total ∧
      (generateSummaryStats rs).safe.percentage
        = some (round1 (100 * ((generateSummaryStats rs).safe.count : ℚ)
            / ((generateSummaryStats rs).total : ℚ))) ∧
      (generateSummaryStats rs).moderate.percentage
        = some (round1 (100 * ((generateSummaryStats rs).moderate.count : ℚ)
            / ((generateSummaryStats rs).total : ℚ))) ∧
      (generateSummaryStats rs).danger.percentage
        = some (round1 (100 * ((generateSummaryStats rs).danger.count : ℚ)
            / ((generateSummaryStats rs).total : ℚ))) := by
  have hlen : rs.length ≠ 0 := fun h0 => h (List.length_eq_zero.1 h0)
  refine ⟨?_, ?_, ?_, ?_⟩
  · simpa [generateSummaryStats] using filter_status_partition rs
  · simp only [generateSummaryStats, if_neg hlen]
    congr 2
    ring
  · simp only [generateSummaryStats, if_neg hlen]
    congr 2
    ring
  · simp only [generateSummaryStats, if_neg hlen]
    congr 2
    ring

/-- Witness for `generateSummaryStats_spec` on a one-element safe
collection. -/
theorem generateSummaryStats_spec_witness :
    (generateSummaryStats [⟨0, 0, 0, Status.safe, "Safe Level"⟩]).safe.count
        + (generateSummaryStats [⟨0, 0, 0, Status.safe, "Safe Level"⟩]).moderate.count
        + (generateSummaryStats [⟨0, 0, 0, Status.safe, "Safe Level"⟩]).danger.count
      = (generateSummaryStats [⟨0, 0, 0, Status.safe, "Safe Level"⟩]).total :=
  (generateSummaryStats_spec [⟨0, 0, 0, Status.safe, "Safe Level"⟩]
    (List.cons_ne_nil _ _)).1

end Aqualyx

namespace Aqualyx

/-- The callback keeps the accumulator when the ratio does not
strictly exceed the running maximum. -/
theorem criticalStep_le (m : MetalConcentrations) (k : Metal) (v : ℚ) (s : String)
    (h : ratio m k ≤ v) : criticalStep m (v, s) k = (v, s) := by
  unfold criticalStep
  split_ifs with hh
  · exact absurd hh (not_lt.2 h)
  · rfl

/-- The callback replaces the accumulator when the ratio strictly
exceeds the running maximum. -/
theorem criticalStep_gt (m : MetalConcentrations) (k : Metal) (v : ℚ) (s : String)
    (h : v < ratio m k) : criticalStep m (v, s) k = (ratio m k, metalName k) := by
  unfold criticalStep
  split_ifs with hh
  · rfl
  · exact absurd h hh

/-- With a nonnegative lead ratio, the first iteration always leaves
the accumulator holding the lead ratio and the name lead. -/
theorem criticalStep_init (m : MetalConcentrations)
    (h : 0 ≤ ratio m Metal.lead) :
    criticalStep m ((0 : ℚ), metalName Metal.lead) Metal.lead
      = (ratio m Metal.lead, metalName Metal.lead) := by
  rcases eq_or_lt_of_le h with h' | h'
  · rw [criticalStep_le m Metal.lead 0 (metalName Metal.lead) (le_of_eq h'.symm), ← h']
  · exact criticalStep_gt m Metal.lead 0 (metalName Metal.lead) h'

/-- `getMostCriticalMetal` written as the four unrolled iterations of
the callback. -/
theorem getMostCriticalMetal_unfold (m : MetalConcentrations) :
    getMostCriticalMetal m =
      { metal := capitalize (criticalStep m (criticalStep m (criticalStep m
            (criticalStep m ((0 : ℚ), metalName Metal.lead) Metal.lead)
            Metal.cadmium) Metal.arsenic) Metal.chromium).2
        ratio := round2 ((criticalStep m (criticalStep m (criticalStep m
            (criticalStep m ((0 : ℚ), metalName Metal.lead) Metal.lead)
            Metal.cadmium) Metal.arsenic) Metal.chromium).1)
        exceedsStandard := decide ((criticalStep m (criticalStep m (criticalStep m
            (criticalStep m ((0 : ℚ), metalName Metal.lead) Metal.lead)
            Metal.cadmium) Metal.arsenic) Metal.chromium).1 > 1) } :=
  rfl

/-- Any fold of the callback over metals keeps the name equal to some
metal's key string. -/
theorem foldl_criticalStep_name (m : MetalConcentrations) :
    ∀ (ks : List Metal) (x : ℚ × String), (∃ k, x.2 = metalName k) →
      ∃ k, (ks.foldl (criticalStep m) x).2 = metalName k := by
  intro ks
  induction ks with
  | nil => exact fun x hx => hx
  | cons k rest ih =>
    intro x hx
    apply ih
    unfold criticalStep
    split_ifs
    · exact ⟨k, rfl⟩
    · exact hx

/-- Claim C7: on nonnegative concentrations the finder selects the
metal with the strictly largest exceedance ratio, the first metal in
canonical order winning ties, and reports the capitalized name, the
ratio rounded to 2 decimals, and whether the ratio exceeds 1; the
all-exactly-double input selects lead with ratio 2. -/
theorem getMostCriticalMetal_spec (m : MetalConcentrations)
    (hl : 0 ≤ m.lead) (hc : 0 ≤ m.cadmium)
    (ha : 0 ≤ m.arsenic) (hch : 0 ≤ m.chromium) :
    getMostCriticalMetal m = specMostCritical m ∧
      getMostCriticalMetal ⟨2/100, 6/1000, 2/100, 1/10⟩ = ⟨"Lead", 2, true⟩ := by
  constructor
  · have h0 : 0 ≤ ratio m Metal.lead := div_nonneg hl (by norm_num [STANDARDS])
    rw [getMostCriticalMetal_unfold, criticalStep_init m h0]
    rcases le_or_lt (ratio m Metal.cadmium) (ratio m Metal.lead) with hA | hA
    · rw [criticalStep_le m Metal.cadmium _ _ hA]
      rcases le_or_lt (ratio m Metal.arsenic) (ratio m Metal.lead) with hB | hB
      · rw [criticalStep_le m Metal.arsenic _ _ hB]
        rcases le_or_lt (ratio m Metal.chromium) (ratio m Metal.lead) with hC | hC
        · rw [criticalStep_le m Metal.chromium _ _ hC]
          have hmax : specMaxRatio m = ratio m Metal.lead := by
            unfold specMaxRatio
            rw [max_eq_left hA, max_eq_left hB, max_eq_left hC]
          unfold specMostCritical
          rw [hmax, if_pos rfl]
        · rw [criticalStep_gt m Metal.chromium _ _ hC]
          have hmax : specMaxRatio m = ratio m Metal.chromium := by
            unfold specMaxRatio
            rw [max_eq_left hA, max_eq_left hB, max_eq_right hC.le]
          unfold specMostCritical
          rw [hmax, if_neg (ne_of_lt hC), if_neg (ne_of_lt (lt_of_le_of_lt hA hC)),
            if_neg (ne_of_lt (lt_of_le_of_lt hB hC))]
      · rw [criticalStep_gt m Metal.arsenic _ _ hB]
        rcases le_or_lt (ratio m Metal.chromium) (ratio m Metal.arsenic) with hC | hC
        · rw [criticalStep_le m Metal.chromium _ _ hC]
          have hmax : specMaxRatio m = ratio m Metal.arsenic := by
            unfold specMaxRatio
            rw [max_eq_left hA, max_eq_right hB.le, max_eq_left hC]
          unfold specMostCritical
          rw [hmax, if_neg (ne_of_lt hB), if_neg (ne_of_lt (lt_of_le_of_lt hA hB)),
            if_pos rfl]
        · rw [criticalStep_gt m Metal.chromium _ _ hC]
          have hmax : specMaxRatio m = ratio m Metal.chromium := by
            unfold specMaxRatio
            rw [max_eq_left hA, max_eq_right hB.le, max_eq_right hC.le]
          unfold specMostCritical
          rw [hmax, if_neg (ne_of_lt (hB.trans hC)),
            if_neg (ne_of_lt (lt_of_le_of_lt hA (hB.trans hC))),
            if_neg (ne_of_lt hC)]
    · rw [criticalStep_gt m Metal.cadmium _ _ hA]
      rcases le_or_lt (ratio m Metal.arsenic) (ratio m Metal.cadmium) with hB | hB
      · rw [criticalStep_le m Metal.arsenic _ _ hB]
        rcases le_or_lt (ratio m Metal.chromium) (ratio m Metal.cadmium) with hC | hC
        · rw [criticalStep_le m Metal.chromium _ _ hC]
          have hmax : specMaxRatio m = ratio m Metal.cadmium := by
            unfold specMaxRatio
            rw [max_eq_right hA.le, max_eq_left hB, max_eq_left hC]
          unfold specMostCritical
          rw [hmax, if_neg (ne_of_lt hA), if_pos rfl]
        · rw [criticalStep_gt m Metal.chromium _ _ hC]
          have hmax : specMaxRatio m = ratio m Metal.chromium := by
            unfold specMaxRatio
            rw [max_eq_right hA.le, max_eq_left hB, max_eq_right hC.le]
          unfold specMostCritical
          rw [hmax, if_neg (ne_of_lt (hA.trans hC)), if_neg (ne_of_lt hC),
            if_neg (ne_of_lt (lt_of_le_of_lt hB hC))]
      · rw [criticalStep_gt m Metal.arsenic _ _ hB]
        rcases le_or_lt (ratio m Metal.chromium) (ratio m Metal.arsenic) with hC | hC
        · rw [criticalStep_le m Metal.chromium _ _ hC]
          have hmax : specMaxRatio m = ratio m Metal.arsenic := by
            unfold specMaxRatio
            rw [max_eq_right hA.le, max_eq_right hB.le, max_eq_left hC]
          unfold specMostCritical
          rw [hmax, if_neg (ne_of_lt (hA.trans hB)), if_neg (ne_of_lt hB), if_pos rfl]
        · rw [criticalStep_gt m Metal.chromium _ _ hC]
          have hmax : specMaxRatio m = ratio m Metal.chromium := by
            unfold specMaxRatio
            rw [max_eq_right hA.le, max_eq_right hB.le, max_eq_right hC.le]
          unfold specMostCritical
          rw [hmax, if_neg (ne_of_lt ((hA.trans hB).trans hC)),
            if_neg (ne_of_lt (hB.trans hC)), if_neg (ne_of_lt hC)]
  · norm_num [getMostCriticalMetal, metalKeys, criticalStep, ratio, conc, STANDARDS,
      metalName, round2, round_eq, capitalize]
    rfl

/-- Witness for `getMostCriticalMetal_spec` at the all-exactly-double
input. -/
theorem getMostCriticalMetal_spec_witness :
    getMostCriticalMetal ⟨2/100, 6/1000, 2/100, 1/10⟩
      = specMostCritical ⟨2/100, 6/1000, 2/100, 1/10⟩ :=
  (getMostCriticalMetal_spec ⟨2/100, 6/1000, 2/100, 1/10⟩ (by norm_num) (by norm_num)
    (by norm_num) (by norm_num)).1

/-- Claim C10: the metal name returned by the finder is always some
metal key with its first letter uppercased, and the all-zero input
returns Lead with ratio 0 and exceedsStandard false. -/
theorem getMostCriticalMetal_capitalized :
    (∀ m : MetalConcentrations, ∃ k : Metal,
        (getMostCriticalMetal m).metal = capitalize (metalName k)) ∧
      getMostCriticalMetal ⟨0, 0, 0, 0⟩ = ⟨"Lead", 0, false⟩ := by
  constructor
  · intro m
    obtain ⟨k, hk⟩ := foldl_criticalStep_name m metalKeys
      ((0 : ℚ), metalName Metal.lead) ⟨Metal.lead, rfl⟩
    refine ⟨k, ?_⟩
    show capitalize (metalKeys.foldl (criticalStep m) ((0 : ℚ), metalName Metal.lead)).2
      = capitalize (metalName k)
    rw [hk]
  · norm_num [getMostCriticalMetal, metalKeys, criticalStep, ratio, conc, STANDARDS,
      metalName, round2, round_eq, capitalize]
    rfl

end Aqualyx
